import Mathlib

/-
Shallow embedding of the gevent 0.9.0 core (gevent/__init__.py) and of the
cooperative socket module (gevent/socket.py).

The reactor (libevent, imported as the module `core`) is external to the
repository: it is modelled abstractly as a `World` that hands out event
handles and records which handles have been cancelled.  Greenlets and Python
exception instances are identified by natural numbers, so the Python `is`
comparison becomes equality of identities.  Numeric timeouts are modelled as
integers because the embedded code only ever compares them with zero.
-/

namespace Gevent

/-- Python exception classes appearing on the modelled code paths.  The
modelled code never subclasses any of these, so an `isinstance` check is
class equality, and the data the code reads off an instance (errno, message)
is carried on the class tag. -/
inductive ExcClass where
  | timeoutError
  | silentException
  | socketError (eno : Int) (msg : String)
  | socketTimeout (msg : String)
  | valueError (msg : String)
  | typeError (msg : String)
  | assertionError
  | otherClass (tag : Nat)
  deriving DecidableEq

/-- A Python exception instance: `eid` is its object identity (the `is`
operator compares identities) and `cls` its class. -/
structure ExcVal where
  eid : Nat
  cls : ExcClass
  deriving DecidableEq

/-- The kinds of reactor registrations armed by the modelled code. -/
inductive EventKind where
  | timerEv
  | readEvent
  | writeEvent
  | readwriteEvent
  | coreRead
  | coreWrite
  deriving DecidableEq

/-- The reactor, abstracted (the spec treats it as an external collaborator):
it allocates event handles and records which handles were cancelled.  The
`nextId` counter is also used to allocate fresh Python object identities.
An armed entry records the handle, the registration kind and the timeout or
delay passed to the reactor. -/
structure World where
  nextId : Nat
  armed : List (Nat × EventKind × Option Int)
  cancelled : List Nat
  deriving DecidableEq

/-- Arm a reactor registration of kind `k` with reactor-side timeout `tmo`,
returning the fresh handle.  The file descriptor and the callback are
reactor-side data with no effect on the control flow modelled here. -/
def World.arm (w : World) (k : EventKind) (tmo : Option Int) : Nat × World :=
  (w.nextId, { w with nextId := w.nextId + 1, armed := w.armed ++ [(w.nextId, k, tmo)] })

/-- Cancel an event handle (`event.cancel()`). -/
def World.cancel (w : World) (t : Nat) : World :=
  { w with cancelled := w.cancelled ++ [t] }

/-- Allocate a fresh exception instance of class `c` (fresh object
identity). -/
def World.allocExc (w : World) (c : ExcClass) : ExcVal × World :=
  (⟨w.nextId, c⟩, { w with nextId := w.nextId + 1 })

/-- Outcome of evaluating a Python expression: a value or a raised
exception. -/
inductive PyResult (α : Type) where
  | ok (v : α)
  | exn (e : ExcVal)
  deriving DecidableEq

/-- The `timeout` context manager (gevent/__init__.py lines 184 to 224).
Field `exception` stores the exception instance to throw at the deadline;
field `timeoutTimer` (named `self.timeout` in the source, renamed because it
would shadow the class name in Lean) stores the armed timer handle, or
`none` when the scope was constructed with `seconds=None`. -/
structure timeout where
  exception : ExcVal
  timeoutTimer : Option Nat
  deriving DecidableEq

/-- Body of `timeout.__init__(seconds, exception)` (gevent/__init__.py lines
199 to 206): when `exception is None` a fresh `_SilentException()` is
allocated; when `seconds is None` no timer is armed, otherwise
`timer(seconds, getcurrent().throw, exception)` is armed. -/
def timeout_init (w : World) (seconds : Option Int) (exception : Option ExcVal) :
    timeout × World :=
  let (exc, w1) :=
    match exception with
    | some e => (e, w)
    | none => w.allocExc .silentException
  match seconds with
  | none => ({ exception := exc, timeoutTimer := none }, w1)
  | some sec =>
    let (t, w2) := w1.arm .timerEv (some sec)
    ({ exception := exc, timeoutTimer := some t }, w2)

/-- Method `timeout.cancel()` (gevent/__init__.py lines 208 to 210): cancels
the timer when one was armed, otherwise does nothing. -/
def timeout.cancel (s : timeout) (w : World) : World :=
  match s.timeoutTimer with
  | none => w
  | some t => w.cancel t

/-- Method `timeout.__exit__(typ, value, tb)` (gevent/__init__.py lines 221
to 224): always calls `self.cancel()` first, then returns `True` (suppress
the in-flight exception) exactly when `typ is _SilentException and value is
self.exception`.  Here `excInfo` is the in-flight exception value, `none` on
a normal exit; `typ` is its class. -/
def timeout.exit (s : timeout) (w : World) (excInfo : Option ExcVal) : World × Bool :=
  let w1 := s.cancel w
  match excInfo with
  | none => (w1, false)
  | some e => (w1, decide (e.cls = .silentException ∧ e.eid = s.exception.eid))

/-- The fresh `TimeoutError()` instance allocated by a `with_timeout` call
that starts in world `w`. -/
def with_timeout_marker (w : World) : ExcVal :=
  (w.allocExc ExcClass.timeoutError).1

/-- Function `with_timeout(seconds, func, *args, timeout_value=v)`
(gevent/__init__.py lines 227 to 275).  The callable is given the freshly
allocated `TimeoutError` marker, because the armed timer can throw exactly
that instance into it; its outcome is otherwise arbitrary.  Reactor effects
performed inside `func` belong to other calls and are not modelled here. -/
def with_timeout {α : Type} (w : World) (seconds : Option Int)
    (func : ExcVal → PyResult α) (has_timeout_value : Bool) (timeout_value : α) :
    PyResult α × World :=
  let (error, w1) := w.allocExc .timeoutError
  let (timer, w2) := timeout_init w1 seconds (some error)
  let body : PyResult α :=
    match func error with
    | .ok v => .ok v
    | .exn ex =>
      match ex.cls with
      | .timeoutError =>
        if ex.eid = error.eid ∧ has_timeout_value = true then .ok timeout_value
        else .exn ex
      | _ => .exn ex
  (body, timer.cancel w2)

/-- The value delivered when a waiting greenlet is resumed, that is when its
`hub.switch()` call finishes: either a plain switch carrying an event handle
(`_wait_helper` does `current.switch(ev)`), or an exception thrown into the
greenlet (`_wait_helper` throws `timeout_exc` on `EV_TIMEOUT`; `kill` or an
enclosing `timeout` scope can throw anything else). -/
inductive SwitchOutcome where
  | value (v : Nat)
  | exn (e : ExcVal)
  deriving DecidableEq

/-- The `AssertionError` raised by a failed `assert`; its object identity is
irrelevant to the modelled code. -/
def assertionFailure : ExcVal := ⟨0, .assertionError⟩

/-- Function `wait_read(fileno, timeout, timeout_exc)` (gevent/socket.py
lines 136 to 142): arms `core.read_event`, switches to the hub, asserts that
the resumption value is the armed event, and cancels the event in a
`finally` block on every exit path. -/
def wait_read (w : World) (tmo : Option Int) (outcome : Nat → SwitchOutcome) :
    PyResult Unit × World :=
  let (evt, w1) := w.arm .readEvent tmo
  let result : PyResult Unit :=
    match outcome evt with
    | .value v => if v = evt then .ok () else .exn assertionFailure
    | .exn e => .exn e
  (result, w1.cancel evt)

/-- Function `wait_write(fileno, timeout, timeout_exc)` (gevent/socket.py
lines 145 to 151), analogous to `wait_read` with `core.write_event`. -/
def wait_write (w : World) (tmo : Option Int) (outcome : Nat → SwitchOutcome) :
    PyResult Unit × World :=
  let (evt, w1) := w.arm .writeEvent tmo
  let result : PyResult Unit :=
    match outcome evt with
    | .value v => if v = evt then .ok () else .exn assertionFailure
    | .exn e => .exn e
  (result, w1.cancel evt)

/-- Function `wait_readwrite(fileno, timeout, timeout_exc)` (gevent/socket.py
lines 154 to 160), analogous to `wait_read` with `core.readwrite_event`. -/
def wait_readwrite (w : World) (tmo : Option Int) (outcome : Nat → SwitchOutcome) :
    PyResult Unit × World :=
  let (evt, w1) := w.arm .readwriteEvent tmo
  let result : PyResult Unit :=
    match outcome evt with
    | .value v => if v = evt then .ok () else .exn assertionFailure
    | .exn e => .exn e
  (result, w1.cancel evt)

/-- Function `wait_reader(fileno, timeout, timeout_exc)` (gevent/__init__.py
lines 163 to 169): same shape as `wait_read` but arming `core.read`. -/
def wait_reader (w : World) (tmo : Option Int) (outcome : Nat → SwitchOutcome) :
    PyResult Unit × World :=
  let (evt, w1) := w.arm .coreRead tmo
  let result : PyResult Unit :=
    match outcome evt with
    | .value v => if v = evt then .ok () else .exn assertionFailure
    | .exn e => .exn e
  (result, w1.cancel evt)

/-- Function `wait_writer(fileno, timeout, timeout_exc)` (gevent/__init__.py
lines 171 to 177): same shape as `wait_read` but arming `core.write`. -/
def wait_writer (w : World) (tmo : Option Int) (outcome : Nat → SwitchOutcome) :
    PyResult Unit × World :=
  let (evt, w1) := w.arm .coreWrite tmo
  let result : PyResult Unit :=
    match outcome evt with
    | .value v => if v = evt then .ok () else .exn assertionFailure
    | .exn e => .exn e
  (result, w1.cancel evt)

/-- Function `sleep(seconds)` (gevent/__init__.py lines 97 to 114): asserts
that the caller is not the hub greenlet, arms
`timer(seconds, getcurrent().switch)`, switches to the hub and cancels the
timer in a `finally` block.  The resumption value is discarded.  `cur` and
`hubG` are the identities of the current and the hub greenlet. -/
def sleep (w : World) (seconds : Int) (cur hubG : Nat)
    (outcome : Nat → SwitchOutcome) : PyResult Unit × World :=
  if cur = hubG then (.exn assertionFailure, w)
  else
    let (t, w1) := w.arm .timerEv (some seconds)
    let result : PyResult Unit :=
      match outcome t with
      | .value _ => .ok ()
      | .exn e => .exn e
    (result, w1.cancel t)

/-- A greenlet as the hub sees it: its identity and its liveness. -/
structure GreenletObj where
  gid : Nat
  dead : Bool
  deriving DecidableEq

/-- The hub (gevent/__init__.py lines 117 to 145): it owns the driver
greenlet whose body runs the dispatch loop. -/
structure Hub where
  greenlet : GreenletObj
  deriving DecidableEq

/-- Result of `Hub.switch()` observed up to the moment control is actually
transferred: either the entry assertion fails, or control transfers into the
recorded driver greenlet. -/
inductive SwitchStep where
  | assertionError
  | switched (driver : GreenletObj)
  deriving DecidableEq

/-- Method `Hub.switch()` (gevent/__init__.py lines 123 to 134): asserts the
caller is not the driver greenlet; if the driver greenlet is dead a fresh one
(identity `freshId`) is created; then control transfers into the driver.
The `switch_out` hook of the caller, when present, is invoked before the
transfer, but any exception it raises is only printed and cannot alter the
control flow, so it is not modelled. -/
def Hub.switch (h : Hub) (cur : GreenletObj) (freshId : Nat) : SwitchStep :=
  if cur.gid = h.greenlet.gid then .assertionError
  else if h.greenlet.dead then .switched ⟨freshId, false⟩
  else .switched h.greenlet

/-- A greenlet record as created by the spawner: identity, parent identity
and whether its body has started executing. -/
structure GreenletRec where
  gid : Nat
  parent : Nat
  started : Bool
  deriving DecidableEq

/-- What a timer callback armed by the spawner will do when it fires. -/
inductive TimerCallback where
  | switchTo (gid : Nat)
  | throwInto (gid : Nat)
  deriving DecidableEq

/-- Scheduler state seen by the spawner: the identity of the running
greenlet, the identity of the hub driver greenlet, the created greenlets and
the armed scheduling timers with their delay and callback. -/
structure Sched where
  current : Nat
  hubGreenlet : Nat
  greenlets : List GreenletRec
  timers : List (Int × TimerCallback)
  nextId : Nat
  deriving DecidableEq

/-- Function `spawn(function, *args)` (gevent/__init__.py lines 57 to 65):
creates a greenlet (not yet started), sets its parent to
`get_hub().greenlet`, arms `timer(0, g.switch)` and returns the greenlet.
No switch happens anywhere in the body. -/
def spawn (s : Sched) : Nat × Sched :=
  (s.nextId,
   { s with
     greenlets := s.greenlets ++ [⟨s.nextId, s.hubGreenlet, false⟩],
     timers := s.timers ++ [(0, .switchTo s.nextId)],
     nextId := s.nextId + 1 })

/-- Errno constants (Linux values from the errno module). -/
def EWOULDBLOCK : Int := 11

/-- Errno of a bad file descriptor. -/
def EBADF : Int := 9

/-- The field `self._sock` of the wrapper: either the real underlying socket
or the `_closedsocket` placeholder installed by `close()` (gevent/socket.py
lines 186 to 192 and 263 to 267). -/
inductive SockRef where
  | real (fd : Nat)
  | closedPlaceholder
  deriving DecidableEq

/-- The error raised by `_closedsocket._dummy` (gevent/socket.py lines 188
to 189): `error(errno.EBADF, 'Bad file descriptor')`. -/
def ebadfError : ExcVal := ⟨0, .socketError EBADF "Bad file descriptor"⟩

/-- The cooperative socket wrapper state relevant to the modelled methods:
the underlying socket reference, the per-socket timeout, and whether
`close()` has rebound the `_delegate_methods` names as instance attributes
pointing at `_closedsocket._dummy`. -/
structure socket where
  _sock : SockRef
  timeout : Option Int
  delegatesAreDummy : Bool
  deriving DecidableEq

/-- Method `socket.close()` (gevent/socket.py lines 263 to 267): replaces
`self._sock` with a fresh `_closedsocket()` and rebinds every name in
`_delegate_methods` to its `_dummy`. -/
def socket.close (s : socket) : socket :=
  { s with _sock := .closedPlaceholder, delegatesAreDummy := true }

/-- The I/O entry points of the wrapper.  The names in `_delegate_methods`
(gevent/socket.py line 195) receive instance bindings on `close()`; any
other method reaches `self._sock` through the reflective delegation
(gevent/socket.py lines 442 to 446). -/
inductive IOMethod where
  | send
  | recv
  | recv_into
  | sendto
  | recvfrom
  | recvfrom_into
  | sendall
  | delegated (tag : Nat)
  deriving DecidableEq

/-- Invoke I/O method `m` on the wrapper.  `openResult` abstracts what the
method does while the wrapper is open (`send` and `sendto` are modelled in
full separately).  After `close()`, a name from `_delegate_methods` finds the
`_dummy` instance binding, and any reflectively delegated method hits
`_closedsocket.__getattr__ = _dummy`; both raise
`error(EBADF, 'Bad file descriptor')`. -/
def socket.io_call (s : socket) (m : IOMethod) (openResult : PyResult Nat) :
    PyResult Nat :=
  match m with
  | .delegated _ =>
    match s._sock with
    | .closedPlaceholder => .exn ebadfError
    | .real _ => openResult
  | _ => if s.delegatesAreDummy then .exn ebadfError else openResult

/-- Argument passed to `settimeout`: `None`, a number, or an object without
a `__float__` method. -/
inductive TimeoutArg where
  | pynone
  | num (v : Int)
  | nonfloat
  deriving DecidableEq

/-- Method `socket.settimeout(howlong)` (gevent/socket.py lines 422 to 431):
`None` clears the timeout; a number is range-checked and stored; a value
without `__float__` raises `TypeError`. -/
def socket.settimeout (s : socket) (howlong : TimeoutArg) : Except ExcVal socket :=
  match howlong with
  | .pynone => .ok { s with timeout := none }
  | .num v =>
    if v < 0 then .error ⟨0, .valueError "Timeout value out of range"⟩
    else .ok { s with timeout := some v }
  | .nonfloat => .error ⟨0, .typeError "a float is required"⟩

/-- Method `socket.gettimeout()` (gevent/socket.py lines 433 to 434). -/
def socket.gettimeout (s : socket) : Option Int := s.timeout

/-- Outcome of one attempt of the underlying `self._sock.send` or
`self._sock.sendto`: a byte count, or a raised exception. -/
inductive Attempt where
  | ok (n : Nat)
  | raised (e : ExcVal)
  deriving DecidableEq

/-- Method `socket.send(data, flags, timeout=timeout_default)`
(gevent/socket.py lines 365 to 380).  `timeout_arg = none` models the
keyword being omitted (the `timeout_default` sentinel), in which case the
per-socket timeout is used.  `att1` and `att2` are the outcomes of the at
most two underlying send attempts; `outcome` feeds the `wait_write` call
performed between them with the effective timeout. -/
def socket.send (w : World) (s : socket) (timeout_arg : Option (Option Int))
    (att1 att2 : Attempt) (outcome : Nat → SwitchOutcome) : PyResult Nat × World :=
  let t : Option Int :=
    match timeout_arg with
    | none => s.timeout
    | some tt => tt
  match att1 with
  | .ok n => (.ok n, w)
  | .raised e =>
    match e.cls with
    | .socketError eno _ =>
      if eno ≠ EWOULDBLOCK ∨ t = some 0 then (.exn e, w)
      else
        match wait_write w t outcome with
        | (.exn we, w1) => (.exn we, w1)
        | (.ok _, w1) =>
          match att2 with
          | .ok n => (.ok n, w1)
          | .raised e2 =>
            match e2.cls with
            | .socketError eno2 _ =>
              if eno2 = EWOULDBLOCK then (.ok 0, w1) else (.exn e2, w1)
            | _ => (.exn e2, w1)
    | _ => (.exn e, w)

/-- In the guard of `socket.sendto` (gevent/socket.py line 405) the name
`timeout` is not a local variable: it resolves to the module-level binding
`timeout = _socket.timeout` (gevent/socket.py line 82), which is an
exception class.  A class object never compares equal to `0.0`, so the
disjunct `timeout == 0.0` of the guard is identically false. -/
def sendto_guard_timeout_eq_zero : Bool := false

/-- Method `socket.sendto(*args)` (gevent/socket.py lines 401 to 414): same
retry shape as `send`, but the guard tests the module-level `timeout` class
(see `sendto_guard_timeout_eq_zero`) and the inner wait is
`wait_write(self.fileno(), timeout=self.timeout)`. -/
def socket.sendto (w : World) (s : socket) (att1 att2 : Attempt)
    (outcome : Nat → SwitchOutcome) : PyResult Nat × World :=
  match att1 with
  | .ok n => (.ok n, w)
  | .raised e =>
    match e.cls with
    | .socketError eno _ =>
      if eno ≠ EWOULDBLOCK ∨ sendto_guard_timeout_eq_zero = true then (.exn e, w)
      else
        match wait_write w s.timeout outcome with
        | (.exn we, w1) => (.exn we, w1)
        | (.ok _, w1) =>
          match att2 with
          | .ok n => (.ok n, w1)
          | .raised e2 =>
            match e2.cls with
            | .socketError eno2 _ =>
              if eno2 = EWOULDBLOCK then (.ok 0, w1) else (.exn e2, w1)
            | _ => (.exn e2, w1)
    | _ => (.exn e, w)

/-- C1: for every call `with_timeout(seconds, fn, ..., timeout_value=v)`: a
normal return of `fn` is passed through; raising exactly this call's marker
with `timeout_value` provided yields `v`; any exception that is not this
call's own marker, or the marker itself when no `timeout_value` was given,
propagates even when `timeout_value` was provided; and the internal timer is
cancelled on every exit path.  The hypothesis `hid` states that the identity
encoding is faithful: an exception of `fn` sharing the marker's object
identity is the marker itself. -/
theorem with_timeout_correct {α : Type} (w : World) (seconds : Option Int)
    (func : ExcVal → PyResult α) (htv : Bool) (tv : α)
    (hid : ∀ e, func (with_timeout_marker w) = .exn e →
      e.eid = (with_timeout_marker w).eid → e = with_timeout_marker w) :
    (∀ v, func (with_timeout_marker w) = .ok v →
      (with_timeout w seconds func htv tv).1 = .ok v)
  ∧ (func (with_timeout_marker w) = .exn (with_timeout_marker w) → htv = true →
      (with_timeout w seconds func htv tv).1 = .ok tv)
  ∧ (∀ e, func (with_timeout_marker w) = .exn e →
      e ≠ with_timeout_marker w ∨ htv = false →
      (with_timeout w seconds func htv tv).1 = .exn e)
  ∧ (∀ s, seconds = some s →
      (w.nextId + 1) ∈ (with_timeout w seconds func htv tv).2.cancelled) := by
  have hm : with_timeout_marker w = ⟨w.nextId, ExcClass.timeoutError⟩ := rfl
  rw [hm] at hid
  refine ⟨?_, ?_, ?_, ?_⟩
  · intro v hv
    rw [hm] at hv
    cases seconds <;>
      simp [with_timeout, World.allocExc, timeout_init, World.arm, timeout.cancel,
        World.cancel, hv]
  · intro hv htv1
    rw [hm] at hv
    subst htv1
    cases seconds <;>
      simp [with_timeout, World.allocExc, timeout_init, World.arm, timeout.cancel,
        World.cancel, hv]
  · intro e hv hne
    rw [hm] at hv
    rw [hm] at hne
    obtain ⟨eid, cls⟩ := e
    cases cls <;>
      cases seconds <;>
        simp [with_timeout, World.allocExc, timeout_init, World.arm, timeout.cancel,
          World.cancel, hv]
    all_goals {
      intro heid
      subst heid
      have := hid _ hv rfl
      rcases hne with hne | hne
      · exact absurd this hne
      · simp [hne]
    }
  · intro s hs
    subst hs
    simp [with_timeout, World.allocExc, timeout_init, World.arm, timeout.cancel,
      World.cancel]

/-- C1 witness: concrete instance where the callable raises exactly the
marker and a `timeout_value` is provided, plus cancellation of the timer. -/
theorem with_timeout_correct_witness :
    (with_timeout ⟨0, [], []⟩ (some 1) (fun e => .exn e) true (42 : Nat)).1 = .ok 42
  ∧ (1 : Nat) ∈ (with_timeout ⟨0, [], []⟩ (some 1) (fun e => .exn e) true (42 : Nat)).2.cancelled := by
  have h := @with_timeout_correct Nat ⟨0, [], []⟩ (some 1) (fun e => .exn e) true 42
    (fun e he _ => by cases he; rfl)
  exact ⟨h.2.1 rfl rfl, h.2.2.2 1 rfl⟩

/-- C6: for every timeout scope: exiting the scope (normally or
exceptionally) cancels its timer; `__exit__` suppresses an in-flight
exception iff its type is the `_SilentException` sentinel type and its value
is the identical object stored in the scope; and a scope constructed with
`seconds = None` arms no timer and its `cancel` is a no-op. -/
theorem timeout_scope_correct (w w2 : World) (seconds : Option Int)
    (excArg : Option ExcVal) (e : ExcVal) :
    (∀ t, ((timeout_init w seconds excArg).1).timeoutTimer = some t →
        t ∈ (timeout.exit (timeout_init w seconds excArg).1 w2 (some e)).1.cancelled
      ∧ t ∈ (timeout.exit (timeout_init w seconds excArg).1 w2 none).1.cancelled)
  ∧ ((timeout.exit (timeout_init w seconds excArg).1 w2 (some e)).2 = true ↔
      e.cls = .silentException ∧ e.eid = ((timeout_init w seconds excArg).1).exception.eid)
  ∧ (seconds = none →
      ((timeout_init w seconds excArg).1).timeoutTimer = none
    ∧ timeout.cancel (timeout_init w seconds excArg).1 w2 = w2
    ∧ (timeout_init w seconds excArg).2.armed = w.armed) := by
  refine ⟨?_, ?_, ?_⟩
  · intro t ht
    cases seconds <;> cases excArg <;>
      simp_all [timeout_init, World.allocExc, World.arm, timeout.exit, timeout.cancel,
        World.cancel]
  · cases seconds <;> cases excArg <;>
      simp [timeout_init, World.allocExc, World.arm, timeout.exit, timeout.cancel,
        World.cancel]
  · intro hs
    subst hs
    cases excArg <;>
      simp [timeout_init, World.allocExc, World.arm, timeout.exit, timeout.cancel,
        World.cancel]

/-- C6 witness: a concrete scope with an armed timer whose exit cancels the
timer both on the exceptional and on the normal path. -/
theorem timeout_scope_correct_witness :
    (1 : Nat) ∈ (timeout.exit (timeout_init ⟨0, [], []⟩ (some 1) none).1 ⟨5, [], []⟩
        (some ⟨0, .silentException⟩)).1.cancelled
  ∧ (1 : Nat) ∈ (timeout.exit (timeout_init ⟨0, [], []⟩ (some 1) none).1 ⟨5, [], []⟩
        none).1.cancelled :=
  (timeout_scope_correct ⟨0, [], []⟩ ⟨5, [], []⟩ (some 1) none ⟨0, .silentException⟩).1 1 rfl

/-- C2: every event or timer armed by `wait_read`, `wait_write`,
`wait_readwrite`, `wait_reader`, `wait_writer` or `sleep` has `cancel()`
invoked on it before the call returns, on every exit path (the resumption
outcome `oc` is arbitrary: normal value, timeout exception thrown in, any
other exception).  For `sleep`, either the entry assertion failed before
anything was armed and the world is untouched, or the armed timer is
cancelled. -/
theorem wait_primitives_cancel (w : World) (tmo : Option Int) (seconds : Int)
    (cur hubG : Nat) (oc : Nat → SwitchOutcome) :
    w.nextId ∈ (wait_read w tmo oc).2.cancelled
  ∧ w.nextId ∈ (wait_write w tmo oc).2.cancelled
  ∧ w.nextId ∈ (wait_readwrite w tmo oc).2.cancelled
  ∧ w.nextId ∈ (wait_reader w tmo oc).2.cancelled
  ∧ w.nextId ∈ (wait_writer w tmo oc).2.cancelled
  ∧ (((sleep w seconds cur hubG oc).2 = w ∧ cur = hubG)
      ∨ w.nextId ∈ (sleep w seconds cur hubG oc).2.cancelled) := by
  refine ⟨?_, ?_, ?_, ?_, ?_, ?_⟩ <;>
    first
    | simp [wait_read, wait_write, wait_readwrite, wait_reader, wait_writer,
        World.arm, World.cancel]
    | (by_cases hc : cur = hubG
       · exact Or.inl ⟨by simp [sleep, hc], hc⟩
       · exact Or.inr (by simp [sleep, hc, World.arm, World.cancel]))

/-- C3: a wait primitive returns normally exactly when the value delivered
by the hub switch is the identical event handle armed by that call; any
other resumption value makes the call trap via a failed assertion instead of
returning. -/
theorem wait_primitives_resumption (w : World) (tmo : Option Int)
    (oc : Nat → SwitchOutcome) :
    ((wait_read w tmo oc).1 = .ok () ↔ oc w.nextId = .value w.nextId)
  ∧ (∀ v, oc w.nextId = .value v → v ≠ w.nextId →
      (wait_read w tmo oc).1 = .exn assertionFailure)
  ∧ ((wait_write w tmo oc).1 = .ok () ↔ oc w.nextId = .value w.nextId)
  ∧ (∀ v, oc w.nextId = .value v → v ≠ w.nextId →
      (wait_write w tmo oc).1 = .exn assertionFailure)
  ∧ ((wait_readwrite w tmo oc).1 = .ok () ↔ oc w.nextId = .value w.nextId)
  ∧ (∀ v, oc w.nextId = .value v → v ≠ w.nextId →
      (wait_readwrite w tmo oc).1 = .exn assertionFailure)
  ∧ ((wait_reader w tmo oc).1 = .ok () ↔ oc w.nextId = .value w.nextId)
  ∧ (∀ v, oc w.nextId = .value v → v ≠ w.nextId →
      (wait_reader w tmo oc).1 = .exn assertionFailure)
  ∧ ((wait_writer w tmo oc).1 = .ok () ↔ oc w.nextId = .value w.nextId)
  ∧ (∀ v, oc w.nextId = .value v → v ≠ w.nextId →
      (wait_writer w tmo oc).1 = .exn assertionFailure) := by
  have key : ∀ k : EventKind,
      ((match oc w.nextId with
        | .value v => if v = w.nextId then PyResult.ok () else .exn assertionFailure
        | .exn e => .exn e) = .ok () ↔ oc w.nextId = .value w.nextId)
    ∧ (∀ v, oc w.nextId = .value v → v ≠ w.nextId →
        (match oc w.nextId with
        | .value v => if v = w.nextId then PyResult.ok () else .exn assertionFailure
        | .exn e => .exn e) = PyResult.exn assertionFailure) := by
    intro _
    constructor
    · cases hoc : oc w.nextId with
      | value v =>
        by_cases hv : v = w.nextId <;> simp [hv, assertionFailure]
      | exn e => simp [assertionFailure]
    · intro v hv hne
      simp [hv, hne]
  exact ⟨(key .readEvent).1, (key .readEvent).2, (key .writeEvent).1, (key .writeEvent).2,
    (key .readwriteEvent).1, (key .readwriteEvent).2, (key .coreRead).1, (key .coreRead).2,
    (key .coreWrite).1, (key .coreWrite).2⟩

/-- C3 witness: a stray switch delivering a value other than the armed
event handle traps the call via a failed assertion. -/
theorem wait_primitives_resumption_witness :
    (wait_read ⟨0, [], []⟩ (some (-1)) (fun _ => .value 7)).1 = .exn assertionFailure :=
  (wait_primitives_resumption ⟨0, [], []⟩ (some (-1)) (fun _ => .value 7)).2.1 7 rfl
    (by decide)

/-- C4: `Hub.switch()` traps via a failed assertion when called from the
driver greenlet; otherwise it always transfers into a live driver greenlet,
creating a fresh one first when the recorded driver is dead, and keeping the
existing one when it is alive. -/
theorem hub_switch_correct (h : Hub) (cur : GreenletObj) (freshId : Nat) :
    (cur.gid = h.greenlet.gid → Hub.switch h cur freshId = .assertionError)
  ∧ (cur.gid ≠ h.greenlet.gid →
      ∃ d, Hub.switch h cur freshId = .switched d ∧ d.dead = false)
  ∧ (cur.gid ≠ h.greenlet.gid → h.greenlet.dead = true →
      Hub.switch h cur freshId = .switched ⟨freshId, false⟩)
  ∧ (cur.gid ≠ h.greenlet.gid → h.greenlet.dead = false →
      Hub.switch h cur freshId = .switched h.greenlet) := by
  refine ⟨?_, ?_, ?_, ?_⟩
  · intro he
    simp [Hub.switch, he]
  · intro hne
    by_cases hd : h.greenlet.dead
    · exact ⟨⟨freshId, false⟩, by simp [Hub.switch, hne, hd], rfl⟩
    · exact ⟨h.greenlet, by simp [Hub.switch, hne, hd], by simp [hd]⟩
  · intro hne hd
    simp [Hub.switch, hne, hd]
  · intro hne hd
    simp [Hub.switch, hne, hd]

/-- C4 witness: switching from a non-driver greenlet while the driver is
dead transfers into a freshly created live driver greenlet. -/
theorem hub_switch_correct_witness :
    Hub.switch ⟨⟨0, true⟩⟩ ⟨1, false⟩ 2 = .switched ⟨2, false⟩ :=
  (hub_switch_correct ⟨⟨0, true⟩⟩ ⟨1, false⟩ 2).2.2.1 (by decide) rfl

/-- C5: `spawn(fn, args...)` returns without transferring control (the
current greenlet is unchanged and the spawned greenlet has not started), the
new greenlet's parent is the hub driver greenlet, and a zero-delay timer
whose callback resumes the new greenlet is armed. -/
theorem spawn_correct (s : Sched) :
    (spawn s).2.current = s.current
  ∧ (spawn s).2.hubGreenlet = s.hubGreenlet
  ∧ (⟨(spawn s).1, s.hubGreenlet, false⟩ : GreenletRec) ∈ (spawn s).2.greenlets
  ∧ ((0 : Int), TimerCallback.switchTo (spawn s).1) ∈ (spawn s).2.timers := by
  refine ⟨rfl, rfl, ?_, ?_⟩ <;> simp [spawn]

/-- C7: `socket.send(data, flags, timeout=...)`: the effective timeout is
the explicit keyword when given, else the per-socket timeout; a successful
single attempt is returned; a would-block with effective timeout 0, and any
non would-block error, are re-raised; a would-block with effective timeout
distinct from 0 waits for writability and retries exactly once, the single
retry returning its byte count on success and 0 when it would-blocks
again. -/
theorem socket_send_correct (w : World) (s : socket) (tt : Option Int)
    (att1 att2 : Attempt) (oc : Nat → SwitchOutcome) (n : Nat) (e e2 : ExcVal)
    (eno : Int) (m m2 : String) :
    (socket.send w s (some tt) att1 att2 oc
      = socket.send w { s with timeout := tt } none att1 att2 oc)
  ∧ (att1 = .ok n → socket.send w s none att1 att2 oc = (.ok n, w))
  ∧ (att1 = .raised e → e.cls = .socketError EWOULDBLOCK m → s.timeout = some 0 →
      socket.send w s none att1 att2 oc = (.exn e, w))
  ∧ (att1 = .raised e → e.cls = .socketError eno m → eno ≠ EWOULDBLOCK →
      socket.send w s none att1 att2 oc = (.exn e, w))
  ∧ (att1 = .raised e → e.cls = .socketError EWOULDBLOCK m → s.timeout ≠ some 0 →
      oc w.nextId = .value w.nextId →
        (att2 = .ok n →
          socket.send w s none att1 att2 oc = (.ok n, (wait_write w s.timeout oc).2))
      ∧ (att2 = .raised e2 → e2.cls = .socketError EWOULDBLOCK m2 →
          socket.send w s none att1 att2 oc = (.ok 0, (wait_write w s.timeout oc).2))) := by
  refine ⟨?_, ?_, ?_, ?_, ?_⟩
  · rfl
  · intro h1
    simp [socket.send, h1]
  · intro h1 hcls ht
    simp [socket.send, h1, hcls, ht]
  · intro h1 hcls hne
    simp [socket.send, h1, hcls, hne]
  · intro h1 hcls ht hoc
    have hfst : (wait_write w s.timeout oc).1 = PyResult.ok () := by
      simp [wait_write, World.arm, hoc]
    rcases hw : wait_write w s.timeout oc with ⟨r, w1⟩
    rw [hw] at hfst
    simp only at hfst
    subst hfst
    constructor
    · intro h2
      simp [socket.send, h1, hcls, ht, hw, h2]
    · intro h2 hcls2
      simp [socket.send, h1, hcls, ht, hw, h2, hcls2]

/-- C7 witness: a socket with per-socket timeout 5 whose first underlying
send would-blocks and whose single retry would-blocks again returns 0. -/
theorem socket_send_correct_witness :
    socket.send ⟨0, [], []⟩ ⟨.real 3, some 5, false⟩ none
        (.raised ⟨0, .socketError EWOULDBLOCK "wb"⟩)
        (.raised ⟨1, .socketError EWOULDBLOCK "wb"⟩)
        (fun t => .value t)
      = (.ok 0, (wait_write ⟨0, [], []⟩ (some 5) (fun t => .value t)).2) :=
  ((socket_send_correct ⟨0, [], []⟩ ⟨.real 3, some 5, false⟩ none
      (.raised ⟨0, .socketError EWOULDBLOCK "wb"⟩)
      (.raised ⟨1, .socketError EWOULDBLOCK "wb"⟩)
      (fun t => .value t) 0 ⟨0, .socketError EWOULDBLOCK "wb"⟩
      ⟨1, .socketError EWOULDBLOCK "wb"⟩ 0 "wb" "wb").2.2.2.2 rfl rfl (by decide) rfl).2
    rfl rfl

/-- C8: at the failing input (per-socket timeout 0, underlying `sendto`
raising a would-block error) the code does not re-raise the error: the
guard compares the module-level `timeout` exception class with `0.0`, which
is always false, so the call falls through to `wait_write` and the retry.
Here the retry succeeds with 5 bytes, so the call returns 5 instead of
re-raising, and the `wait_write` event it armed appears in the world. -/
theorem socket_sendto_zero_timeout_waits :
    socket.sendto ⟨0, [], []⟩ ⟨.real 3, some 0, false⟩
        (.raised ⟨0, .socketError EWOULDBLOCK "wb"⟩) (.ok 5) (fun t => .value t)
      = (.ok 5, ⟨1, [(0, .writeEvent, some 0)], [0]⟩)
  ∧ socket.sendto ⟨0, [], []⟩ ⟨.real 3, some 0, false⟩
        (.raised ⟨0, .socketError EWOULDBLOCK "wb"⟩) (.ok 5) (fun t => .value t)
      ≠ (.exn ⟨0, .socketError EWOULDBLOCK "wb"⟩, ⟨0, [], []⟩) := by
  constructor
  · rfl
  · decide

/-- C9: after `close()` every I/O method of the wrapper — the
`_delegate_methods` rebound on the instance as well as any method
reflectively delegated to the underlying socket — raises the socket error
with errno `EBADF` and message `Bad file descriptor`, and closing again
leaves the wrapper in the same closed state. -/
theorem socket_close_correct (s : socket) (m : IOMethod) (openResult : PyResult Nat) :
    socket.io_call (socket.close s) m openResult = .exn ebadfError
  ∧ socket.close (socket.close s) = socket.close s
  ∧ ebadfError.cls = .socketError EBADF "Bad file descriptor" := by
  refine ⟨?_, rfl, rfl⟩
  cases m <;> simp [socket.close, socket.io_call]

/-- C10: `close()` modifies only the socket reference and the delegated
method bindings: the timeout field is unchanged, `gettimeout` returns the
same value as immediately before the close, and `settimeout` operates on
the closed wrapper exactly as it does on the open one (it commutes with
`close`). -/
theorem socket_close_frame (s : socket) (h : TimeoutArg) :
    (socket.close s).timeout = s.timeout
  ∧ socket.gettimeout (socket.close s) = socket.gettimeout s
  ∧ socket.settimeout (socket.close s) h = Except.map socket.close (socket.settimeout s h) := by
  refine ⟨rfl, rfl, ?_⟩
  cases h with
  | pynone => rfl
  | num v =>
    by_cases hv : v < 0 <;> simp [socket.settimeout, socket.close, hv, Except.map]
  | nonfloat => rfl

end Gevent
